import Mathlib

/-!
A shallow embedding of the reward-economy core of `src/main.py`
(Telegram reward bot): the users/tasks/submissions/verifiers/referrals
tables, the ledger mutations (`ad_watched`, `daily_claim`, the referral
credit inside `bot_start`, the approval credit inside
`review_submission`), the boost policy, and the session verification
routine `verify_init_data`.

Modelling conventions:
- SQLite rows become Lean structures; each table becomes a function
  from its integer primary key to `Option` of its row type (the
  `referrals` table, keyed by the pair, becomes a boolean edge relation).
- `TEXT` timestamps are modelled as `Nat` instants; `TEXT` ISO dates
  (the `last_daily` column) as `Nat` day numbers.  The stored
  `boost_until` string is modelled by `Stamp`: a value that either
  parses to an instant or is malformed; `none` stands for SQL NULL or
  an empty string (both falsy in the Python code).
- `INTEGER` coin balances are `Nat` (every mutation in the source adds
  a non-negative amount, and the columns default to 0, never NULL).
- Each HTTP handler is embedded from the point where the request is
  authenticated and parsed, as a function of the store (plus the
  current time where the source reads `utcnow`), returning its result
  value and the updated store.
-/

namespace MiniBot

/-- A stored `boost_until` cell that is non-NULL and non-empty: either a
timestamp that `datetime.fromisoformat` would parse (`time t`) or an
unparseable string (`malformed`), which `main.py` treats as inactive. -/
inductive Stamp where
  | malformed : Stamp
  | time : Nat → Stamp
  deriving DecidableEq

/-- A row of the `users` table (`main.py` lines 57-68). -/
structure UserRow where
  username : String
  coins : Nat
  referrer_id : Option Nat
  joined_at : Option Nat
  ads_watched : Nat
  ad_counter : Nat
  boost_until : Option Stamp
  last_daily : Option Nat
  deriving DecidableEq

/-- A row of the `tasks` table (`main.py` lines 69-76). -/
structure Task where
  title : String
  description : String
  link : String
  reward : Nat
  deriving DecidableEq

/-- The `status` column of `task_submissions`. -/
inductive SubStatus where
  | pending : SubStatus
  | approved : SubStatus
  | rejected : SubStatus
  deriving DecidableEq

/-- A row of the `task_submissions` table (`main.py` lines 77-87). -/
structure Submission where
  user_id : Nat
  task_id : Nat
  file_path : String
  status : SubStatus
  submitted_at : Nat
  reviewed_by : Option Nat
  review_reason : Option String
  deriving DecidableEq

/-- The whole SQLite database of `main.py`: one field per table. -/
structure Store where
  users : Nat → Option UserRow
  tasks : Nat → Option Task
  submissions : Nat → Option Submission
  verifiers : Nat → Bool
  referrals : Nat → Nat → Bool

/-- The freshly migrated, empty database. -/
def emptyStore : Store where
  users := fun _ => none
  tasks := fun _ => none
  submissions := fun _ => none
  verifiers := fun _ => false
  referrals := fun _ _ => false

/-- Replace (or create) the row of user `uid`. -/
def setUser (s : Store) (uid : Nat) (u : UserRow) : Store :=
  { s with users := fun n => if n = uid then some u else s.users n }

/-- The balance the `/balance` endpoint would report: `COALESCE(coins,0)`
of the row, 0 when the row is absent. -/
def coinsOf (s : Store) (uid : Nat) : Nat :=
  match s.users uid with
  | some u => u.coins
  | none => 0

/-- The stored `last_daily` cell of user `uid`, `none` when the row is
absent or the cell is NULL. -/
def lastDailyOf (s : Store) (uid : Nat) : Option Nat :=
  match s.users uid with
  | some u => u.last_daily
  | none => none

/-- The stored `ad_counter` cell of user `uid` (0 when absent). -/
def adCounterOf (s : Store) (uid : Nat) : Nat :=
  match s.users uid with
  | some u => u.ad_counter
  | none => 0

/-- The ledger credit statement used by both paying call sites:
`UPDATE users SET coins = COALESCE(coins,0) + ? WHERE user_id = ?`
(`main.py` line 324, and line 453 with the literal 200).  An UPDATE
whose WHERE clause matches no row is a no-op: no row is created. -/
def creditExisting (s : Store) (uid : Nat) (amt : Nat) : Store :=
  match s.users uid with
  | some u => setUser s uid { u with coins := u.coins + amt }
  | none => s

/-- The row created by `bot_start`:
`INSERT OR IGNORE INTO users (user_id, username, coins, joined_at)
VALUES (?, ?, 100, ?)` (`main.py` line 449); the remaining columns take
their defaults (0 for the counters, NULL otherwise). -/
def startRow (uname : String) (now : Nat) : UserRow where
  username := uname
  coins := 100
  referrer_id := none
  joined_at := some now
  ads_watched := 0
  ad_counter := 0
  boost_until := none
  last_daily := none

/-- `INSERT OR IGNORE` of the `bot_start` row: a no-op when the row
already exists. -/
def startInsert (s : Store) (uid : Nat) (uname : String) (now : Nat) : Store :=
  match s.users uid with
  | some _ => s
  | none => setUser s uid (startRow uname now)

/-- `INSERT OR IGNORE INTO referrals (referrer_id, referred_id)`
(`main.py` line 452): set-semantics insert on the pair primary key. -/
def addReferralIgnore (s : Store) (r : Nat) (b : Nat) : Store :=
  { s with referrals := fun x y => if x = r ∧ y = b then true else s.referrals x y }

/-- The database effect of the `/start` handler `bot_start`
(`main.py` lines 444-456): insert-or-ignore the user row (with a
100-coin signup balance), and when a referrer argument is present,
non-zero (Python truthiness of `referrer_id`) and distinct from the
new user, insert-or-ignore the referral edge and then credit the
referrer 200 coins.  Note the credit is NOT conditioned on the edge
insert having inserted anything. -/
def bot_start (uid : Nat) (uname : String) (referrer : Option Nat) (now : Nat)
    (s : Store) : Store :=
  let s1 := startInsert s uid uname now
  match referrer with
  | none => s1
  | some r =>
      if r ≠ 0 ∧ r ≠ uid then
        creditExisting (addReferralIgnore s1 r uid) r 200
      else s1

/-- The lazy boost-expiry test used by `/balance` and by the approval
path of `review_submission` (`main.py` lines 193-199 and 312-321): a
boost is active iff the stored cell is non-NULL, non-empty, parses, and
the parsed instant is strictly in the future (`until > utcnow()`).
NULL or empty cells (`none`) and unparseable cells (`malformed`) count
as inactive, never as an error. -/
def boostActive (bu : Option Stamp) (now : Nat) : Bool :=
  match bu with
  | some (Stamp.time t) => decide (now < t)
  | some Stamp.malformed => false
  | none => false

/-- The row created by the ad-watch handler:
`INSERT OR IGNORE INTO users (user_id, username, coins, ads_watched,
ad_counter) VALUES (?, ?, 0, 0, 0)` (`main.py` line 219); the remaining
columns take their defaults. -/
def freshAdRow (uname : String) : UserRow where
  username := uname
  coins := 0
  referrer_id := none
  joined_at := none
  ads_watched := 0
  ad_counter := 0
  boost_until := none
  last_daily := none

/-- The user row as seen by `ad_watched` just after its
`INSERT OR IGNORE`: the existing row, or the fresh one. -/
def userAfterAdInsert (s : Store) (uid : Nat) (uname : String) : UserRow :=
  match s.users uid with
  | some u => u
  | none => freshAdRow uname

/-- The JSON body returned by `/webapp/ad_watched`. -/
structure AdResult where
  coins_awarded : Nat
  coins_total : Nat
  ads_watched : Nat
  ads_to_next : Nat
  boost_until : Option Nat
  deriving DecidableEq

/-- Two hours, the boost window length (`timedelta(hours=2)`),
in seconds. -/
def twoHours : Nat := 7200

/-- The database effect and response of the `/webapp/ad_watched`
handler, embedded from the point after authentication and the
membership gate (`main.py` lines 218-238): insert-or-ignore a fresh
row; add the fixed 100-coin ad reward (never multiplied by boost) and
bump the lifetime counter; read the streak counter and increment it;
at 3, write `boost_until = utcnow() + 2h`, reset the streak to 0 and
report the activation instant, otherwise store the incremented streak
and report no activation. -/
def ad_watched (uid : Nat) (uname : String) (now : Nat) (s : Store) :
    AdResult × Store :=
  let u0 := userAfterAdInsert s uid uname
  let u1 := { u0 with coins := u0.coins + 100, ads_watched := u0.ads_watched + 1 }
  let cnt := u1.ad_counter + 1
  if 3 ≤ cnt then
    let u2 := { u1 with boost_until := some (Stamp.time (now + twoHours)), ad_counter := 0 }
    ({ coins_awarded := 100, coins_total := u2.coins, ads_watched := u2.ads_watched,
       ads_to_next := 3, boost_until := some (now + twoHours) }, setUser s uid u2)
  else
    let u2 := { u1 with ad_counter := cnt }
    ({ coins_awarded := 100, coins_total := u2.coins, ads_watched := u2.ads_watched,
       ads_to_next := 3 - cnt, boost_until := none }, setUser s uid u2)

/-- The row created by the daily-claim handler:
`INSERT OR IGNORE INTO users (user_id, username, coins, joined_at)
VALUES (?, ?, 0, ?)` (`main.py` line 430). -/
def freshDailyRow (uname : String) (now : Nat) : UserRow where
  username := uname
  coins := 0
  referrer_id := none
  joined_at := some now
  ads_watched := 0
  ad_counter := 0
  boost_until := none
  last_daily := none

/-- The JSON body returned by `/webapp/daily_claim`. -/
inductive DailyResult where
  | alreadyClaimed : DailyResult
  | awarded : Nat → DailyResult
  deriving DecidableEq

/-- The database effect and response of the `/webapp/daily_claim`
handler, embedded from the point after authentication (`main.py`
lines 429-441): insert-or-ignore the row, read `last_daily`, refuse
when it equals the current UTC date (the connection is closed without
commit, so the store is untouched), otherwise add the fixed 50-coin
reward and store the date.  `today` is the current UTC calendar date,
`now` the `utcnow` instant written into `joined_at` for a fresh row. -/
def daily_claim (uid : Nat) (uname : String) (today : Nat) (now : Nat)
    (s : Store) : DailyResult × Store :=
  let u0 := match s.users uid with
            | some u => u
            | none => freshDailyRow uname now
  if u0.last_daily = some today then (DailyResult.alreadyClaimed, s)
  else (DailyResult.awarded 50,
        setUser s uid { u0 with coins := u0.coins + 50, last_daily := some today })

/-- N serialized executions of `daily_claim` for one user on one
calendar day, collecting the N results and the final store.  Each call
is one atomic step: in the source the implicit sqlite3 transaction
opened by the `INSERT OR IGNORE` at `main.py` line 430 holds the
RESERVED write lock through the `SELECT` (line 431) and the `UPDATE`
(line 439) until the commit at line 440, so a second concurrent
connection blocks at its own line-430 INSERT until the first caller
commits (and the async handler has no await between its statements).
Concurrent same-day calls therefore execute as some serialization of
whole calls, and since the calls are identical, every such
serialization is this sequential composition. -/
def daily_claim_runs (uid : Nat) (uname : String) (today : Nat) (now : Nat) :
    Nat → Store → List DailyResult × Store
  | 0, s => ([], s)
  | n + 1, s =>
      ((daily_claim uid uname today now s).1
          :: (daily_claim_runs uid uname today now n
                (daily_claim uid uname today now s).2).1,
       (daily_claim_runs uid uname today now n
          (daily_claim uid uname today now s).2).2)

/-- The database effect of the `/webapp/delete_task` handler
(`main.py` lines 349-362): admins only; `DELETE FROM tasks WHERE
task_id = ?`. -/
def delete_task (admins : List Nat) (uid : Nat) (tid : Nat) (s : Store) : Store :=
  if uid ∈ admins then
    { s with tasks := fun n => if n = tid then none else s.tasks n }
  else s

/-- The `reward = r[0] if r else 0` lookup of `main.py` line 311: the
reward of the task row as it stands at approval time, 0 when the task
row is absent (for instance after `delete_task`). -/
def taskRewardOrZero (s : Store) (tid : Nat) : Nat :=
  match s.tasks tid with
  | some t => t.reward
  | none => 0

/-- The JSON body returned by `/webapp/review_submission` (the two
HTTPException branches become the first two constructors; the soft
`ok:false, error:already reviewed` reply is `alreadyReviewed`). -/
inductive ReviewResult where
  | notAuthorized : ReviewResult
  | notFound : ReviewResult
  | alreadyReviewed : ReviewResult
  | approvedOk : Nat → ReviewResult
  | rejectedOk : ReviewResult
  deriving DecidableEq

/-- The database effect and response of the `/webapp/review_submission`
handler, embedded from the point after authentication (`main.py` lines
298-331): check the actor is an admin or a registered verifier; fetch
the submission (404 when absent); refuse softly when its status is not
`pending`; on approve, look up the task reward (0 when the task row is
gone), double it when the target user boost is active, credit the
target user and write the terminal `approved` row; on reject, write
the terminal `rejected` row with no credit. -/
def review_submission (admins : List Nat) (uid : Nat) (sub_id : Nat)
    (reason : String) (approve : Bool) (now : Nat) (s : Store) :
    ReviewResult × Store :=
  if uid ∈ admins ∨ s.verifiers uid = true then
    match s.submissions sub_id with
    | none => (ReviewResult.notFound, s)
    | some sub =>
      if sub.status = SubStatus.pending then
        if approve then
          let base := taskRewardOrZero s sub.task_id
          let bu := match s.users sub.user_id with
                    | some u => u.boost_until
                    | none => none
          let reward := if boostActive bu now then base * 2 else base
          let s1 := creditExisting s sub.user_id reward
          (ReviewResult.approvedOk reward,
           { s1 with submissions := fun n =>
               if n = sub_id then
                 some { sub with status := SubStatus.approved,
                                 reviewed_by := some uid,
                                 review_reason := some reason }
               else s1.submissions n })
        else
          (ReviewResult.rejectedOk,
           { s with submissions := fun n =>
               if n = sub_id then
                 some { sub with status := SubStatus.rejected,
                                 reviewed_by := some uid,
                                 review_reason := some reason }
               else s.submissions n })
      else (ReviewResult.alreadyReviewed, s)
  else (ReviewResult.notAuthorized, s)

/-- Boolean lexicographic order on code-point sequences: the order in
which Python `sorted` ranks the field keys. -/
def lexLe : List Char → List Char → Bool
  | [], _ => true
  | _ :: _, [] => false
  | c :: cs, d :: ds =>
      if c.val < d.val then true
      else if d.val < c.val then false
      else lexLe cs ds

/-- Code-point order on strings, as used by `sorted(parsed.keys())`. -/
def strLe (a b : String) : Bool := lexLe a.data b.data

/-- Insert one field into a key-sorted field list. -/
def insertPair (p : String × String) :
    List (String × String) → List (String × String)
  | [] => [p]
  | q :: t => if strLe p.1 q.1 then p :: q :: t else q :: insertPair p t

/-- Insertion sort of the fields by key, modelling `sorted(parsed.keys())`
at `main.py` line 107 (field keys are distinct, so ties never matter). -/
def sortPairs : List (String × String) → List (String × String)
  | [] => []
  | p :: t => insertPair p (sortPairs t)

/-- The reserved signature field key. -/
def hashKey : String := "hash"

/-- The key of the serialized user-identity field. -/
def userKey : String := "user"

/-- The separator joining the `key=value` lines (`main.py` line 108). -/
def newlineSep : String := "\n"

/-- The `key=value` separator (`main.py` line 107). -/
def eqSign : String := "="

/-- The `data_check_string` of `main.py` lines 107-108: the non-hash
fields sorted by key and joined as `key=value` lines. -/
def canonicalString (rest : List (String × String)) : String :=
  String.intercalate newlineSep ((sortPairs rest).map (fun p => p.1 ++ eqSign ++ p.2))

/-- The two `ValueError` branches of `verify_init_data`, both turned
into a 401 authentication failure by every caller. -/
inductive AuthError where
  | missingHash : AuthError
  | invalidHash : AuthError
  deriving DecidableEq

/-- A decoded field value: the raw string, or (for the `user` key when
`json.loads` succeeds) the structured identity of type `α`. -/
inductive FieldVal (α : Type) where
  | raw : String → FieldVal α
  | user : α → FieldVal α
  deriving DecidableEq

/-- The per-field decoding of `main.py` lines 113-117: only the `user`
field is decoded; when decoding fails the raw value is kept. -/
def decodeVal {α : Type} (decode : String → Option α) (k : String) (v : String) :
    FieldVal α :=
  if k == userKey then
    match decode v with
    | some u => FieldVal.user u
    | none => FieldVal.raw v
  else FieldVal.raw v

/-- One field after the decoding pass: the key is kept unchanged. -/
def decodeField {α : Type} (decode : String → Option α) (p : String × String) :
    String × FieldVal α :=
  (p.1, decodeVal decode p.1 p.2)

/-- `verify_init_data` (`main.py` lines 102-118), embedded from the
point after `parse_qsl`: `parsed` is the parsed field list (a dict, so
keys are distinct), `mac` abstracts the keyed hash
`hmac.new(sha256(bot_token).digest(), ., sha256).hexdigest()` as a
function of the canonical string, and `decode` abstracts `json.loads`
into the structured identity type `α`.  Missing signature field: error;
signature different from the recomputed keyed hash of the sorted
`key=value` lines: error; otherwise the field set with the `user`
field decoded (raw on decode failure). -/
def verify_init_data {α : Type} (decode : String → Option α)
    (mac : String → String) (parsed : List (String × String)) :
    Except AuthError (List (String × FieldVal α)) :=
  match parsed.lookup hashKey with
  | none => Except.error AuthError.missingHash
  | some check_hash =>
      let rest := parsed.filter (fun p => !(p.1 == hashKey))
      if mac (canonicalString rest) == check_hash then
        Except.ok (rest.map (decodeField decode))
      else Except.error AuthError.invalidHash

theorem lookup_hash_append (h : String) :
    ∀ (rest : List (String × String)), (∀ p ∈ rest, p.1 ≠ hashKey) →
    List.lookup hashKey (rest ++ [(hashKey, h)]) = some h := by
  intro rest hp
  induction rest with
  | nil => simp [List.lookup]
  | cons a t ih =>
      obtain ⟨ak, av⟩ := a
      have ha : ak ≠ hashKey := hp (ak, av) (by simp)
      have hb : (hashKey == ak) = false := beq_eq_false_iff_ne.mpr (Ne.symm ha)
      simp only [List.cons_append, List.lookup, hb]
      exact ih (fun p hpm => hp p (by simp [hpm]))

theorem filter_hash_append (h : String) :
    ∀ (rest : List (String × String)), (∀ p ∈ rest, p.1 ≠ hashKey) →
    (rest ++ [(hashKey, h)]).filter (fun p => !(p.1 == hashKey)) = rest := by
  intro rest hp
  induction rest with
  | nil => simp
  | cons a t ih =>
      obtain ⟨ak, av⟩ := a
      have ha : ak ≠ hashKey := hp (ak, av) (by simp)
      have hb : (ak == hashKey) = false := beq_eq_false_iff_ne.mpr ha
      have ihh := ih (fun p hpm => hp p (by simp [hpm]))
      simp only [List.cons_append, List.filter, hb, Bool.not_false]
      exact congrArg (List.cons (ak, av)) ihh

theorem lookup_map_decodeVal {α : Type} (g : String → String → FieldVal α)
    (k : String) :
    ∀ (l : List (String × String)),
    List.lookup k (l.map (fun p => (p.1, g p.1 p.2))) =
      Option.map (g k) (List.lookup k l) := by
  intro l
  induction l with
  | nil => simp [List.lookup]
  | cons a t ih =>
      obtain ⟨ak, av⟩ := a
      cases hk : (k == ak) with
      | false => simp [List.lookup, hk, ih]
      | true =>
          have : k = ak := eq_of_beq hk
          subst this
          simp [List.lookup]

/-- C1: the claim says a repeated `register_referral(A, B)` is a no-op
and credits A exactly 200 in total.  On the code this fails: the
referral edge is a unique-key insert (created at most once), but the
200-coin credit at `main.py` line 453 is not conditioned on the edge
insert having inserted a row, so each repeated `/start` with the same
referrer argument credits again.  Concretely: user 1 registers (balance
100), then user 2 runs `/start 1` twice; user 1 ends at
100 + 200 + 200 = 500 coins, not 300, while the edge (1,2) exists
once (set semantics). -/
theorem bot_start_double_referral_credits_400 :
    coinsOf (bot_start 2 "b" (some 1) 2
      (bot_start 2 "b" (some 1) 1 (bot_start 1 "a" none 0 emptyStore))) 1 = 500
    ∧ (bot_start 2 "b" (some 1) 2
      (bot_start 2 "b" (some 1) 1 (bot_start 1 "a" none 0 emptyStore))).referrals 1 2
        = true := by
  exact ⟨rfl, rfl⟩

/-- C2 counterexample: the claim says a ledger credit creates the user
row with zero balance when absent, so the credited amount is never
lost.  On the code the credit is a bare UPDATE: crediting 200 coins to
the absent user 7 leaves the store unchanged and creates no row. -/
theorem creditExisting_no_row_counterexample :
    creditExisting emptyStore 7 200 = emptyStore
    ∧ (creditExisting emptyStore 7 200).users 7 = none := by
  exact ⟨rfl, rfl⟩

/-- C2 amended: a ledger credit increases the balance of an existing
user row by exactly the amount (all other columns unchanged); when no
row exists for the user id, the UPDATE matches no row, no row is
created, and the credit is silently lost. -/
theorem creditExisting_spec (s : Store) (uid : Nat) (amt : Nat) :
    (∀ u, s.users uid = some u →
      (creditExisting s uid amt).users uid = some { u with coins := u.coins + amt })
    ∧ (s.users uid = none → creditExisting s uid amt = s) := by
  constructor
  · intro u hu
    simp [creditExisting, hu, setUser]
  · intro hu
    simp [creditExisting, hu]

/-- Sample user row for the C2 witness. -/
def userC2 : UserRow where
  username := "x"
  coins := 7
  referrer_id := none
  joined_at := none
  ads_watched := 0
  ad_counter := 0
  boost_until := none
  last_daily := none

/-- Sample one-user store for the C2 witness. -/
def storeC2 : Store := setUser emptyStore 1 userC2

/-- C2 witness: the amended credit theorem evaluated on a concrete
existing row (balance 7 + 5 = 12) and on a concrete absent row. -/
theorem creditExisting_spec_witness :
    (creditExisting storeC2 1 5).users 1 = some { userC2 with coins := userC2.coins + 5 }
    ∧ creditExisting emptyStore 9 200 = emptyStore := by
  exact ⟨(creditExisting_spec storeC2 1 5).1 userC2 rfl,
         (creditExisting_spec emptyStore 9 200).2 rfl⟩

/-- Sample task (reward 50) for the C3 theorems. -/
def taskC3 : Task where
  title := "t"
  description := "d"
  link := "l"
  reward := 50

/-- Sample pending submission (user 5, task 1) for the C3 theorems. -/
def subC3 : Submission where
  user_id := 5
  task_id := 1
  file_path := "f"
  status := SubStatus.pending
  submitted_at := 0
  reviewed_by := none
  review_reason := none

/-- Sample target-user row for the C3 theorems. -/
def userRowC3 : UserRow where
  username := "u"
  coins := 0
  referrer_id := none
  joined_at := none
  ads_watched := 0
  ad_counter := 0
  boost_until := none
  last_daily := none

/-- Sample store for the C3 theorems: task 1 (reward 50), pending
submission 1 by user 5, admin reviewer 9. -/
def storeC3 : Store where
  users := fun n => if n = 5 then some userRowC3 else none
  tasks := fun n => if n = 1 then some taskC3 else none
  submissions := fun n => if n = 1 then some subC3 else none
  verifiers := fun _ => false
  referrals := fun _ _ => false

/-- C3 counterexample: the claim says the reward paid on approval is
the task reward at submission-creation time, so deleting the task does
not zero the payout.  On the code the reward is looked up from the
`tasks` table at approval time with a 0 default (`main.py` line 311):
task 1 is worth 50 when submission 1 is created, the admin deletes the
task, and the later approval awards 0, not 50. -/
theorem review_after_delete_counterexample :
    taskRewardOrZero storeC3 1 = 50
    ∧ (review_submission [9] 9 1 "" true 0 (delete_task [9] 9 1 storeC3)).1
        = ReviewResult.approvedOk 0 := by
  exact ⟨rfl, rfl⟩

/-- C3 amended: the reward paid on approval is the task reward as
stored at approval time; when the task row has been deleted before the
approval, the lookup defaults to 0, so the approval succeeds but
awards 0 coins and leaves the target user balance unchanged. -/
theorem review_after_delete_awards_zero (admins : List Nat) (uid : Nat)
    (sub_id : Nat) (reason : String) (now : Nat) (s : Store) (sub : Submission)
    (hauth : uid ∈ admins ∨ s.verifiers uid = true)
    (hsub : s.submissions sub_id = some sub)
    (hpend : sub.status = SubStatus.pending)
    (hdel : s.tasks sub.task_id = none) :
    (review_submission admins uid sub_id reason true now s).1
      = ReviewResult.approvedOk 0
    ∧ coinsOf (review_submission admins uid sub_id reason true now s).2 sub.user_id
      = coinsOf s sub.user_id := by
  have hbase : taskRewardOrZero s sub.task_id = 0 := by
    simp [taskRewardOrZero, hdel]
  constructor
  · simp [review_submission, hauth, hsub, hpend, hbase]
  · cases hu : s.users sub.user_id with
    | none =>
        simp [review_submission, hauth, hsub, hpend, hbase, creditExisting, hu, coinsOf]
    | some u =>
        simp [review_submission, hauth, hsub, hpend, hbase, creditExisting, hu, coinsOf,
              setUser]

/-- C3 witness: the amended theorem evaluated on the concrete C3 store
after the concrete task deletion. -/
theorem review_after_delete_awards_zero_witness :
    (review_submission [9] 9 1 "" true 0 (delete_task [9] 9 1 storeC3)).1
      = ReviewResult.approvedOk 0
    ∧ coinsOf (review_submission [9] 9 1 "" true 0 (delete_task [9] 9 1 storeC3)).2 5
      = coinsOf (delete_task [9] 9 1 storeC3) 5 := by
  have h := review_after_delete_awards_zero [9] 9 1 "" 0 (delete_task [9] 9 1 storeC3)
    subC3 (by decide) rfl rfl rfl
  exact ⟨h.1, h.2⟩

/-- C4: a review attempt by an authorized actor (admin or registered
verifier) on a submission that is no longer `pending` returns the soft
`already reviewed` result (a value, not an exception), performs no
credit, and leaves the whole store — submission record and every
balance included — unchanged (`main.py` lines 302-308: the handler
returns before any UPDATE). -/
theorem review_already_reviewed_noop (admins : List Nat) (uid : Nat)
    (sub_id : Nat) (reason : String) (approve : Bool) (now : Nat) (s : Store)
    (sub : Submission)
    (hauth : uid ∈ admins ∨ s.verifiers uid = true)
    (hsub : s.submissions sub_id = some sub)
    (hst : sub.status ≠ SubStatus.pending) :
    review_submission admins uid sub_id reason approve now s
      = (ReviewResult.alreadyReviewed, s) := by
  simp [review_submission, hauth, hsub, hst]

/-- Sample already-approved submission for the C4 witness. -/
def subC4 : Submission where
  user_id := 5
  task_id := 1
  file_path := "f"
  status := SubStatus.approved
  submitted_at := 0
  reviewed_by := some 9
  review_reason := none

/-- Sample store for the C4 witness: submission 1 already approved,
user 3 a registered verifier. -/
def storeC4 : Store where
  users := fun _ => none
  tasks := fun _ => none
  submissions := fun n => if n = 1 then some subC4 else none
  verifiers := fun n => n == 3
  referrals := fun _ _ => false

/-- C4 witness: verifier 3 re-reviews the already-approved submission 1;
the result is the soft signal and the store is returned unchanged. -/
theorem review_already_reviewed_noop_witness :
    review_submission [9] 3 1 "" true 0 storeC4
      = (ReviewResult.alreadyReviewed, storeC4) := by
  exact review_already_reviewed_noop [9] 3 1 "" true 0 storeC4 subC4
    (by decide) rfl (by decide)

/-- C5: on approval of a pending submission the awarded amount is the
task base reward doubled exactly when the target user boost is active
at approval time, and the boost is active exactly when the stored
`boost_until` cell is present, parses, and is strictly in the future;
the awarded amount is credited to the target user.  The doubling iff
needs the base reward positive (`add_task` enforces `reward > 0`). -/
theorem review_approve_boost_reward (admins : List Nat) (uid : Nat)
    (sub_id : Nat) (reason : String) (now : Nat) (s : Store) (sub : Submission)
    (t : Task) (u : UserRow)
    (hauth : uid ∈ admins ∨ s.verifiers uid = true)
    (hsub : s.submissions sub_id = some sub)
    (hpend : sub.status = SubStatus.pending)
    (htask : s.tasks sub.task_id = some t)
    (huser : s.users sub.user_id = some u)
    (hpos : 0 < t.reward) :
    (review_submission admins uid sub_id reason true now s).1
      = ReviewResult.approvedOk
          (if boostActive u.boost_until now then t.reward * 2 else t.reward)
    ∧ ((review_submission admins uid sub_id reason true now s).1
        = ReviewResult.approvedOk (t.reward * 2)
       ↔ boostActive u.boost_until now = true)
    ∧ (boostActive u.boost_until now = true
       ↔ ∃ tt, u.boost_until = some (Stamp.time tt) ∧ now < tt)
    ∧ coinsOf (review_submission admins uid sub_id reason true now s).2 sub.user_id
      = u.coins + (if boostActive u.boost_until now then t.reward * 2 else t.reward) := by
  have h1 : (review_submission admins uid sub_id reason true now s).1
      = ReviewResult.approvedOk
          (if boostActive u.boost_until now then t.reward * 2 else t.reward) := by
    simp [review_submission, hauth, hsub, hpend, taskRewardOrZero, htask, huser]
  refine ⟨h1, ?_, ?_, ?_⟩
  · rw [h1]
    cases hb : boostActive u.boost_until now with
    | true => simp
    | false =>
        simp only [Bool.false_eq_true, if_false, iff_false]
        intro hcontra
        have : t.reward = t.reward * 2 := by
          exact ReviewResult.approvedOk.inj hcontra
        omega
  · cases hbu : u.boost_until with
    | none => simp [boostActive]
    | some st =>
        cases st with
        | malformed => simp [boostActive]
        | time tt => simp [boostActive]
  · simp [review_submission, hauth, hsub, hpend, taskRewardOrZero, htask, huser,
          creditExisting, coinsOf, setUser]

/-- Sample task (reward 50) for the C5 witness. -/
def taskC5 : Task where
  title := "t"
  description := "d"
  link := "l"
  reward := 50

/-- Sample target user for the C5 witness, boost stored until
instant 100. -/
def userC5 : UserRow where
  username := "u"
  coins := 0
  referrer_id := none
  joined_at := none
  ads_watched := 0
  ad_counter := 0
  boost_until := some (Stamp.time 100)
  last_daily := none

/-- Sample pending submission (user 5, task 1) for the C5 witness. -/
def subC5 : Submission where
  user_id := 5
  task_id := 1
  file_path := "f"
  status := SubStatus.pending
  submitted_at := 0
  reviewed_by := none
  review_reason := none

/-- Sample store for the C5 witness. -/
def storeC5 : Store where
  users := fun n => if n = 5 then some userC5 else none
  tasks := fun n => if n = 1 then some taskC5 else none
  submissions := fun n => if n = 1 then some subC5 else none
  verifiers := fun _ => false
  referrals := fun _ _ => false

/-- C5 witness: with the boost stored until instant 100, approving at
time 10 (boost active) awards 100 = 50 × 2 and approving at time 200
(boost expired) awards 50. -/
theorem review_approve_boost_reward_witness :
    (review_submission [9] 9 1 "" true 10 storeC5).1 = ReviewResult.approvedOk 100
    ∧ (review_submission [9] 9 1 "" true 200 storeC5).1 = ReviewResult.approvedOk 50 := by
  have hA := review_approve_boost_reward [9] 9 1 "" 10 storeC5 subC5 taskC5 userC5
    (by decide) rfl rfl rfl rfl (by decide)
  have hB := review_approve_boost_reward [9] 9 1 "" 200 storeC5 subC5 taskC5 userC5
    (by decide) rfl rfl rfl rfl (by decide)
  exact ⟨hA.1.trans (by rfl), hB.1.trans (by rfl)⟩

/-- C6: for a fresh user (no row), three consecutive ad watches each
award exactly 100 coins (the ad reward is never boosted), report no
boost activation on the first two calls and an activation at the call
instant plus two hours on the third, leave the total balance at
exactly 300, and leave the streak counter reset to 0. -/
theorem ad_watched_three_fresh (s : Store) (uid : Nat) (uname : String)
    (t1 t2 t3 : Nat) (h : s.users uid = none) :
    (ad_watched uid uname t1 s).1.coins_awarded = 100
    ∧ (ad_watched uid uname t2 (ad_watched uid uname t1 s).2).1.coins_awarded = 100
    ∧ (ad_watched uid uname t3
        (ad_watched uid uname t2 (ad_watched uid uname t1 s).2).2).1.coins_awarded = 100
    ∧ (ad_watched uid uname t1 s).1.boost_until = none
    ∧ (ad_watched uid uname t2 (ad_watched uid uname t1 s).2).1.boost_until = none
    ∧ (ad_watched uid uname t3
        (ad_watched uid uname t2 (ad_watched uid uname t1 s).2).2).1.boost_until
      = some (t3 + twoHours)
    ∧ coinsOf (ad_watched uid uname t3
        (ad_watched uid uname t2 (ad_watched uid uname t1 s).2).2).2 uid = 300
    ∧ adCounterOf (ad_watched uid uname t3
        (ad_watched uid uname t2 (ad_watched uid uname t1 s).2).2).2 uid = 0 := by
  simp [ad_watched, userAfterAdInsert, freshAdRow, h, setUser, coinsOf, adCounterOf]

/-- C6 witness: the three-ad-watch theorem evaluated from the empty
store at instants 1, 2, 3 (7203 = 3 + 2 hours in seconds). -/
theorem ad_watched_three_fresh_witness :
    (ad_watched 1 "u" 3
        (ad_watched 1 "u" 2 (ad_watched 1 "u" 1 emptyStore).2).2).1.boost_until
      = some 7203
    ∧ coinsOf (ad_watched 1 "u" 3
        (ad_watched 1 "u" 2 (ad_watched 1 "u" 1 emptyStore).2).2).2 1 = 300
    ∧ adCounterOf (ad_watched 1 "u" 3
        (ad_watched 1 "u" 2 (ad_watched 1 "u" 1 emptyStore).2).2).2 1 = 0 := by
  have h := ad_watched_three_fresh emptyStore 1 "u" 1 2 3 rfl
  obtain ⟨a, b, c, d, e, f, g, i⟩ := h
  exact ⟨f.trans (by rfl), g, i⟩

/-- C7: `daily_claim` refuses with the already-claimed error exactly
when the stored last-claim date equals the current UTC date; on
refusal the store is returned unmodified; otherwise it awards exactly
50 coins and stores the current date as the last-claim date. -/
theorem daily_claim_spec (uid : Nat) (uname : String) (today : Nat) (now : Nat)
    (s : Store) :
    ((daily_claim uid uname today now s).1 = DailyResult.alreadyClaimed
       ↔ lastDailyOf s uid = some today)
    ∧ (lastDailyOf s uid = some today →
        daily_claim uid uname today now s = (DailyResult.alreadyClaimed, s))
    ∧ (lastDailyOf s uid ≠ some today →
        (daily_claim uid uname today now s).1 = DailyResult.awarded 50
        ∧ coinsOf (daily_claim uid uname today now s).2 uid = coinsOf s uid + 50
        ∧ lastDailyOf (daily_claim uid uname today now s).2 uid = some today) := by
  cases hu : s.users uid with
  | none =>
      simp [daily_claim, lastDailyOf, coinsOf, hu, setUser, freshDailyRow]
  | some u =>
      by_cases hl : u.last_daily = some today
      · simp [daily_claim, lastDailyOf, coinsOf, hu, hl]
      · simp [daily_claim, lastDailyOf, coinsOf, hu, hl, setUser]

/-- C7 witness: a fresh user claims on day 5 (awarded 50, balance 50,
date stored), and a second claim on the same day is refused with the
store unchanged. -/
theorem daily_claim_spec_witness :
    (daily_claim 1 "u" 5 9 emptyStore).1 = DailyResult.awarded 50
    ∧ coinsOf (daily_claim 1 "u" 5 9 emptyStore).2 1 = 50
    ∧ lastDailyOf (daily_claim 1 "u" 5 9 emptyStore).2 1 = some 5
    ∧ daily_claim 1 "u" 5 9 (daily_claim 1 "u" 5 9 emptyStore).2
        = (DailyResult.alreadyClaimed, (daily_claim 1 "u" 5 9 emptyStore).2) := by
  have h := daily_claim_spec 1 "u" 5 9 emptyStore
  have h2 := daily_claim_spec 1 "u" 5 9 (daily_claim 1 "u" 5 9 emptyStore).2
  have hfresh := h.2.2 (by decide)
  exact ⟨hfresh.1, hfresh.2.1.trans rfl, hfresh.2.2, h2.2.1 hfresh.2.2⟩

theorem daily_claim_fresh_step (uid : Nat) (uname : String) (today : Nat)
    (now : Nat) (s : Store) (h : lastDailyOf s uid ≠ some today) :
    (daily_claim uid uname today now s).1 = DailyResult.awarded 50
    ∧ coinsOf (daily_claim uid uname today now s).2 uid = coinsOf s uid + 50
    ∧ lastDailyOf (daily_claim uid uname today now s).2 uid = some today := by
  cases hu : s.users uid with
  | none => simp [daily_claim, lastDailyOf, coinsOf, hu, setUser, freshDailyRow]
  | some u =>
      have hl : ¬ (u.last_daily = some today) := by
        simpa [lastDailyOf, hu] using h
      simp [daily_claim, lastDailyOf, coinsOf, hu, hl, setUser]

theorem daily_claim_runs_stuck (uid : Nat) (uname : String) (today : Nat)
    (now : Nat) :
    ∀ (n : Nat) (s : Store), lastDailyOf s uid = some today →
    daily_claim_runs uid uname today now n s
      = (List.replicate n DailyResult.alreadyClaimed, s) := by
  intro n
  induction n with
  | zero =>
      intro s h
      simp [daily_claim_runs]
  | succ m ih =>
      intro s h
      have hstep : daily_claim uid uname today now s
          = (DailyResult.alreadyClaimed, s) := by
        cases hu : s.users uid with
        | none => simp [lastDailyOf, hu] at h
        | some u =>
            have hl : u.last_daily = some today := by
              simpa [lastDailyOf, hu] using h
            simp [daily_claim, hu, hl]
      simp [daily_claim_runs, hstep, ih s h, List.replicate_succ]

/-- C9: among N serialized `daily_claim` calls for one user on one UTC
calendar day (the claim check and the credit-and-date write of each
call run atomically inside one implicit transaction, see
`daily_claim_runs`), exactly one call — the first — succeeds with the
50-coin credit, every other call fails with the already-claimed error,
and the balance rises by exactly 50 in total: no serialization of
concurrent same-day callers produces two credited claims. -/
theorem daily_claim_exactly_one_success (uid : Nat) (uname : String)
    (today : Nat) (now : Nat) (n : Nat) (s : Store)
    (h : lastDailyOf s uid ≠ some today) :
    (daily_claim_runs uid uname today now (n + 1) s).1
      = DailyResult.awarded 50 :: List.replicate n DailyResult.alreadyClaimed
    ∧ coinsOf (daily_claim_runs uid uname today now (n + 1) s).2 uid
      = coinsOf s uid + 50 := by
  have hstep := daily_claim_fresh_step uid uname today now s h
  have hstuck := daily_claim_runs_stuck uid uname today now n
      (daily_claim uid uname today now s).2 hstep.2.2
  constructor
  · simp [daily_claim_runs, hstuck, hstep.1]
  · simp [daily_claim_runs, hstuck, hstep.2.1]

/-- C9 witness: three same-day calls for fresh user 1 — the first is
awarded 50, the other two get the already-claimed error, and the final
balance is exactly 50. -/
theorem daily_claim_exactly_one_success_witness :
    (daily_claim_runs 1 "u" 5 9 3 emptyStore).1
      = DailyResult.awarded 50 :: List.replicate 2 DailyResult.alreadyClaimed
    ∧ coinsOf (daily_claim_runs 1 "u" 5 9 3 emptyStore).2 1 = 50 := by
  have h := daily_claim_exactly_one_success 1 "u" 5 9 2 emptyStore (by decide)
  exact ⟨h.1, h.2.trans rfl⟩

/-- C8: session verification.  For any field set signed by appending
the keyed hash of its canonical (key-sorted `key=value`) string, the
verifier accepts and returns the decoded field set; within it, the
`user` field carries the decoded structured identity when decoding
succeeds, and the raw serialized value when decoding fails; a payload
with no `hash` field is rejected; a payload whose `hash` field differs
from the recomputed keyed hash of its other fields (a tampered field,
barring a hash collision) is rejected. -/
theorem verify_init_data_correct {α : Type} (decode : String → Option α)
    (mac : String → String) (rest : List (String × String)) (uval : String)
    (hnh : ∀ p ∈ rest, p.1 ≠ hashKey) :
    verify_init_data decode mac (rest ++ [(hashKey, mac (canonicalString rest))])
      = Except.ok (rest.map (decodeField decode))
    ∧ (List.lookup userKey rest = some uval →
        (∀ uobj, decode uval = some uobj →
          List.lookup userKey (rest.map (decodeField decode))
            = some (FieldVal.user uobj))
        ∧ (decode uval = none →
          List.lookup userKey (rest.map (decodeField decode))
            = some (FieldVal.raw uval)))
    ∧ (∀ d : List (String × String), List.lookup hashKey d = none →
        verify_init_data decode mac d = Except.error AuthError.missingHash)
    ∧ (∀ d ch, List.lookup hashKey d = some ch →
        mac (canonicalString (d.filter (fun p => !(p.1 == hashKey)))) ≠ ch →
        verify_init_data decode mac d = Except.error AuthError.invalidHash) := by
  have e1 := lookup_hash_append (mac (canonicalString rest)) rest hnh
  have e2 := filter_hash_append (mac (canonicalString rest)) rest hnh
  have hcast : rest.map (decodeField decode)
      = rest.map (fun p => (p.1, decodeVal decode p.1 p.2)) := rfl
  have hmap := lookup_map_decodeVal (decodeVal decode) userKey rest
  refine ⟨?_, ?_, ?_, ?_⟩
  · simp [verify_init_data, e1, e2]
  · intro hlook
    constructor
    · intro uobj hdec
      rw [hcast, hmap, hlook]
      simp [decodeVal, hdec]
    · intro hdec
      rw [hcast, hmap, hlook]
      simp [decodeVal, hdec]
  · intro d hd
    simp [verify_init_data, hd]
  · intro d ch hd hne
    simp [verify_init_data, hd, hne]

/-- A stand-in decoder for the C8 witness: decodes the serialized
value 7 and nothing else. -/
def dec0 : String → Option Nat := fun v => if v == "7" then some 7 else none

/-- A stand-in keyed hash for the C8 witness. -/
def mac0 : String → String := fun c => c ++ c

/-- A sample signed field set for the C8 witness. -/
def restW : List (String × String) := [("a", "1"), ("user", "7")]

/-- A sample field set whose user field does not decode, for the C8
witness. -/
def restW2 : List (String × String) := [("user", "9")]

/-- The serialized user value of `restW`. -/
def sevenV : String := "7"

/-- The serialized user value of `restW2`. -/
def nineV : String := "9"

/-- A sample non-matching signature value. -/
def oneV : String := "1"

/-- C8 witness: the verifier theorem evaluated on concrete payloads —
a correctly signed payload is accepted with the user identity decoded,
an undecodable user value is passed through raw, a payload without a
hash field is rejected, and a payload with a wrong hash is rejected. -/
theorem verify_init_data_correct_witness :
    verify_init_data dec0 mac0 (restW ++ [(hashKey, mac0 (canonicalString restW))])
      = Except.ok (restW.map (decodeField dec0))
    ∧ List.lookup userKey (restW.map (decodeField dec0)) = some (FieldVal.user 7)
    ∧ List.lookup userKey (restW2.map (decodeField dec0)) = some (FieldVal.raw nineV)
    ∧ verify_init_data dec0 mac0 restW = Except.error AuthError.missingHash
    ∧ verify_init_data dec0 mac0 [(hashKey, oneV)] = Except.error AuthError.invalidHash := by
  have h := verify_init_data_correct dec0 mac0 restW sevenV (by decide)
  have h2 := verify_init_data_correct dec0 mac0 restW2 nineV (by decide)
  refine ⟨h.1, (h.2.1 rfl).1 7 rfl, (h2.2.1 rfl).2 rfl, h.2.2.1 restW rfl,
    h.2.2.2 [(hashKey, oneV)] oneV rfl (by decide)⟩

end MiniBot
